import Mathlib

set_option maxRecDepth 100000

/-!
Shallow embedding of `CrossLanguageEmpirical/soquery.py`: the language list,
the tag/filename override maps, the text-normalization helpers, and the two
SQL query builders (`query_language_pair` and `build_sql_expr`), together
with theorems settling the specification claims about them.

Side effects of the script (BigQuery execution, CSV writing) are out of
scope; the embedding covers the pure string-building logic, the language
tables and the hardcoded pairs of `query_pairs`.
-/

namespace Soquery

/-- The hardcoded language list, in its order of appearance in the source
(before the `langs.sort()` call). -/
def langsUnsorted : List String :=
  ["java", "c", "c++", "c#", "python", "visual basic", "node",
   "perl", "php", "ruby", "go", "swift", "objective c", "cobol", "fortran",
   "lua", "scala", "lisp", "haskell", "rust", "erlang", "clojure", "matlab",
   "pascal", "r", "kotlin"]

/-- The `tag_langs` dict: canonical language name to the tag text used by
the remote store, for the languages where the two differ. -/
def tag_langs (lang : String) : Option String :=
  if lang = "visual basic" then some "vb.net"
  else if lang = "node" then some "node.js"
  else if lang = "objective c" then some "objective-c"
  else none

/-- Lexicographic comparison of character lists by code point, the order
Python's `list.sort()` uses on strings. -/
def charListLe : List Char → List Char → Bool
  | [], _ => true
  | _ :: _, [] => false
  | a :: as, b :: bs =>
    if a.toNat < b.toNat then true
    else if b.toNat < a.toNat then false
    else charListLe as bs

/-- `langs` after the module-level `langs.sort()` call: the list sorted
lexicographically by code points (a stable sort; the entries are distinct,
so any sort for this order yields the same list). -/
def langs : List String :=
  List.insertionSort (fun a b => charListLe a.data b.data = true) langsUnsorted

/-- `fix_lang_text`: word-boundary regex-style pattern for locating a
language in free text, with the "in c"/"in r"/"in go" special cases. -/
def fix_lang_text (lang : String) : String :=
  if lang = "c" then "/\\bin c\\b/"
  else if lang = "r" then "/\\bin r\\b/"
  else if lang = "go" then "/\\bin go\\b/"
  else "/\\b" ++ lang ++ "\\b/"

/-- `lang_file_name`: canonical language name to filename-safe token. -/
def lang_file_name (lang : String) : String :=
  if lang = "c#" then "cs"
  else if lang = "c++" then "cpp"
  else if lang = "objective c" then "objectivec"
  else if lang = "visual basic" then "visualbasic"
  else lang

/-- `revert_lang_file_name`: filename token back to canonical name. -/
def revert_lang_file_name (lang : String) : String :=
  if lang = "cs" then "c#"
  else if lang = "cpp" then "c++"
  else if lang = "objectivec" then "objective c"
  else if lang = "visualbasic" then "visual basic"
  else lang

/-- Python's `.replace(' ', '')`: delete every space character.
(`String.replace` with a one-character pattern and empty replacement
removes exactly the occurrences of that character.) -/
def removeSpaces (s : String) : String := ⟨s.data.filter (fun c => c ≠ ' ')⟩

/-- The tag LIKE-pattern computation shared by `query_language_pair` and
`build_sql_expr`: `"%<" + tag_langs[l] + ">%" if l in tag_langs else
"%<" + l + ">%"`. -/
def tag_pattern (l : String) : String :=
  match tag_langs l with
  | some t => "%<" ++ t ++ ">%"
  | none => "%<" ++ l ++ ">%"

/-- The SQL text built by `query_language_pair(a, b)` (the f-string
interpolating `atag`, `btag`, `btext`), character for character. -/
def query_language_pair_query (a b : String) : String :=
  let btext := fix_lang_text b
  let atag := tag_pattern a
  let btag := tag_pattern b
  "\n        SELECT CONCAT('http://stackoverflow.com/q/', Cast(P.Id as string)) as URL, P.Title, P.ViewCount, P.Score, P.AcceptedAnswerId, P.Tags, P.Body"
  ++ "\n        FROM `sotorrent-org.2018_12_09.Posts` P"
  ++ "\n        WHERE P.PostTypeId = 1 AND ("
  ++ "\n        (P.Tags LIKE '" ++ atag ++ "' AND P.Tags LIKE '" ++ btag ++ "')"
  ++ "\n        OR"
  ++ "\n        (P.Tags LIKE '" ++ atag ++ "' AND (P.Title LIKE '" ++ btext ++ "' OR P.Body LIKE '" ++ btext ++ "'))"
  ++ "\n        )"
  ++ "\n        AND"
  ++ "\n        P.Score >= 0"
  ++ "\n        AND"
  ++ "\n        P.AcceptedAnswerId IS NOT NULL"
  ++ "\n        "

/-- The basename of the CSV file `query_language_pair(a, b)` writes:
`{lang_file_name(a)}_{lang_file_name(b)}.csv`. -/
def query_language_pair_csv_basename (a b : String) : String :=
  lang_file_name a ++ "_" ++ lang_file_name b ++ ".csv"

/-- The full output path `f'{path}/{a_filename}_{b_filename}.csv'` of
`query_language_pair`. -/
def query_language_pair_csv_path (a b path : String) : String :=
  path ++ "/" ++ query_language_pair_csv_basename a b

/-- One count subselect of `build_sql_expr` (the f-string appended inside
the loop), character for character, as a function of the interpolated
fragments. -/
def count_subselect (atag btag btext lang_no_space : String) : String :=
  "\n            (SELECT COUNT(distinct P.Id) AS " ++ lang_no_space
  ++ "\n            FROM `sotorrent-org.2018_12_09.Posts` P"
  ++ "\n            WHERE P.PostTypeId = 1 AND ("
  ++ "\n            (P.Tags LIKE '" ++ atag ++ "' AND P.Tags LIKE '" ++ btag ++ "')"
  ++ "\n            OR"
  ++ "\n            (P.Tags LIKE '" ++ atag ++ "' AND (P.Title LIKE '" ++ btext ++ "' OR P.Body LIKE '" ++ btext ++ "'))"
  ++ "\n            )"
  ++ "\n            AND"
  ++ "\n            P.Score >= 0) AS " ++ lang_no_space

/-- The loop body of `build_sql_expr`: `for i, l in enumerate(langs)`,
carried out by structural recursion on the remaining languages with the
running index `i` and the accumulated `sql_expr`. The `continue` after the
`a == 'visual basic'` / `l == 'swift'` test skips only the comma append. -/
def build_sql_loop (a atag : String) : Nat → List String → String → String
  | _, [], sql_expr => sql_expr
  | i, l :: rest, sql_expr =>
    let btext := fix_lang_text l
    let btag := tag_pattern l
    let lang_no_space := removeSpaces (lang_file_name l)
    if l ≠ a then
      let sql1 := sql_expr ++ count_subselect atag btag btext lang_no_space
      if a = "visual basic" ∧ l = "swift" then
        build_sql_loop a atag (i + 1) rest sql1
      else if i ≠ langs.length - 1 then
        build_sql_loop a atag (i + 1) rest (sql1 ++ ",\n")
      else
        build_sql_loop a atag (i + 1) rest sql1
    else
      build_sql_loop a atag (i + 1) rest sql_expr

/-- `build_sql_expr(a)`: the combined all-targets count query for source
language `a`. -/
def build_sql_expr (a : String) : String :=
  let atag := tag_pattern a
  build_sql_loop a atag 0 langs "SELECT * FROM\n\n"

/-- The hardcoded `prev` list of `query_pairs` (filename tokens). -/
def query_pairs_prev : List String :=
  ["c", "cs", "clojure", "java", "kotlin", "lua", "matlab", "node",
   "objectivec", "perl", "php", "python", "r", "ruby", "scala"]

/-- The hardcoded `target` list of `query_pairs` (filename tokens). -/
def query_pairs_target : List String :=
  ["cpp", "visualbasic", "java", "cs", "java", "cpp", "python", "php",
   "swift", "python", "java", "cpp", "python", "python", "java"]

/-- The canonical-name pairs `query_pairs` iterates over: the positional
zip of `prev` and `target`, each token converted back through
`revert_lang_file_name`. -/
def query_pairs_canonical : List (String × String) :=
  (query_pairs_prev.zip query_pairs_target).map
    (fun pt => (revert_lang_file_name pt.1, revert_lang_file_name pt.2))

/-! ### Analysis helpers (not part of the embedding) -/

/-- Join a list of strings with a separator between consecutive elements
and no trailing separator. -/
def sepJoin (sep : String) : List String → String
  | [] => ""
  | [s] => s
  | s :: rest => s ++ sep ++ sepJoin sep rest

/-- The count subselect `build_sql_expr a` emits for target language `l`,
as a single function of `a` and `l`. -/
def subselect_for (a l : String) : String :=
  count_subselect (tag_pattern a) (tag_pattern l) (fix_lang_text l)
    (removeSpaces (lang_file_name l))

/-- Whether `pat` occurs as a contiguous sublist of `s`. -/
def listInfixOf (pat : List Char) : List Char → Bool
  | [] => pat.isEmpty
  | c :: rest => pat.isPrefixOf (c :: rest) || listInfixOf pat rest

/-- Whether the string `pat` occurs as a substring of `s`. -/
def strInfixOf (pat s : String) : Bool := listInfixOf pat.data s.data

/-! ### Basic facts about the language table -/

/-- The sorted language list, computed. -/
theorem langs_eq : langs =
    ["c", "c#", "c++", "clojure", "cobol", "erlang", "fortran", "go", "haskell",
     "java", "kotlin", "lisp", "lua", "matlab", "node", "objective c", "pascal",
     "perl", "php", "python", "r", "ruby", "rust", "scala", "swift",
     "visual basic"] := by decide

/-- There are 26 languages. -/
theorem langs_length : langs.length = 26 := by rw [langs_eq]; rfl

/-- The language names are pairwise distinct. -/
theorem langs_nodup : langs.Nodup := by rw [langs_eq]; decide

/-! ### Unfolding lemmas for the `build_sql_expr` loop -/

theorem build_sql_loop_nil (a atag : String) (i : Nat) (acc : String) :
    build_sql_loop a atag i [] acc = acc := rfl

theorem build_sql_loop_cons_skip (a atag l : String) (rest : List String) (i : Nat)
    (acc : String) (h : l = a) :
    build_sql_loop a atag i (l :: rest) acc = build_sql_loop a atag (i + 1) rest acc := by
  rw [build_sql_loop, if_neg (show ¬l ≠ a from fun hn => hn h)]

theorem build_sql_loop_cons_vbswift (a atag l : String) (rest : List String) (i : Nat)
    (acc : String) (hne : l ≠ a) (h : a = "visual basic" ∧ l = "swift") :
    build_sql_loop a atag i (l :: rest) acc =
      build_sql_loop a atag (i + 1) rest
        (acc ++ count_subselect atag (tag_pattern l) (fix_lang_text l)
          (removeSpaces (lang_file_name l))) := by
  rw [build_sql_loop, if_pos hne, if_pos h]

theorem build_sql_loop_cons_comma (a atag l : String) (rest : List String) (i : Nat)
    (acc : String) (hne : l ≠ a) (h : ¬(a = "visual basic" ∧ l = "swift"))
    (hi : i ≠ langs.length - 1) :
    build_sql_loop a atag i (l :: rest) acc =
      build_sql_loop a atag (i + 1) rest
        (acc ++ count_subselect atag (tag_pattern l) (fix_lang_text l)
          (removeSpaces (lang_file_name l)) ++ ",\n") := by
  rw [build_sql_loop, if_pos hne, if_neg h, if_pos hi]

theorem build_sql_loop_cons_last (a atag l : String) (rest : List String) (i : Nat)
    (acc : String) (hne : l ≠ a) (h : ¬(a = "visual basic" ∧ l = "swift"))
    (hi : ¬i ≠ langs.length - 1) :
    build_sql_loop a atag i (l :: rest) acc =
      build_sql_loop a atag (i + 1) rest
        (acc ++ count_subselect atag (tag_pattern l) (fix_lang_text l)
          (removeSpaces (lang_file_name l))) := by
  rw [build_sql_loop, if_pos hne, if_neg h, if_neg hi]

set_option maxHeartbeats 4000000 in
/-- Structure of the generated all-targets query, for every source language
in the list: the output is the header followed by the count subselects of
all other languages in sorted order, joined by `",\n"` with no trailing
separator.  (This single equation also covers the `a = "visual basic"` special
case: there the `continue` suppresses the separator after the
final, `"swift"`, subselect, which is exactly what the join produces.) -/
theorem build_sql_expr_eq (a : String) (ha : a ∈ langs) :
    build_sql_expr a = "SELECT * FROM\n\n" ++
      sepJoin ",\n" ((langs.filter (fun l => l ≠ a)).map (subselect_for a)) := by
  rw [langs_eq] at ha
  fin_cases ha <;>
  simp only [build_sql_expr, langs_eq, build_sql_loop_nil, build_sql_loop_cons_skip,
    build_sql_loop_cons_vbswift, build_sql_loop_cons_comma, build_sql_loop_cons_last,
    langs_length, List.length_cons, List.length_nil, Nat.reduceAdd,
    ne_eq, String.reduceEq, Nat.reduceEqDiff, Nat.reduceSub,
    not_false_eq_true, not_true_eq_false, and_false, false_and, and_true, true_and,
    and_self, not_and, decide_not, decide_False, decide_True, Bool.not_false, Bool.not_true,
    List.filter_cons, List.filter_nil, List.map_cons, List.map_nil, subselect_for, sepJoin,
    String.append_assoc, String.append_empty, ite_true, ite_false, Bool.false_eq_true,
    Bool.true_eq_false, if_true, if_false]

/-- Filtering one occurring element out of a duplicate-free list shortens
it by exactly one. -/
theorem filter_ne_length {α : Type} [DecidableEq α] (a : α) :
    ∀ l : List α, l.Nodup → a ∈ l →
      (l.filter (fun x => x ≠ a)).length = l.length - 1 := by
  intro l
  induction l with
  | nil => intro _ ha; exact absurd ha (List.not_mem_nil a)
  | cons b t ih =>
    intro hnd ha
    rcases List.mem_cons.mp ha with rfl | hat
    · have hnotin : a ∉ t := (List.nodup_cons.mp hnd).1
      have ht : t.filter (fun x => x ≠ a) = t := by
        apply List.filter_eq_self.mpr
        intro x hx
        have hxa : x ≠ a := fun hxb => hnotin (hxb ▸ hx)
        simp [hxa]
      rw [List.filter_cons, if_neg (by simp), ht, List.length_cons, Nat.add_sub_cancel]
    · have hba : b ≠ a := by
        intro hb
        exact (List.nodup_cons.mp hnd).1 (hb ▸ hat)
      have ihr := ih (List.nodup_cons.mp hnd).2 hat
      have hpos : 0 < t.length := List.length_pos.mpr (by rintro rfl; cases hat)
      rw [List.filter_cons, if_pos (by simp [hba]), List.length_cons, List.length_cons, ihr]
      omega


/-! ### Substring machinery: `listInfixOf` versus `List.IsInfix`, and an
invariant showing the count subselects never mention "AcceptedAnswerId" -/

theorem listInfixOf_iff (pat : List Char) : ∀ s : List Char, listInfixOf pat s = true ↔ pat <:+: s := by
  intro s
  induction s with
  | nil =>
    rw [listInfixOf, List.infix_nil, List.isEmpty_iff]
  | cons c rest ih =>
    rw [listInfixOf, Bool.or_eq_true, ih, List.isPrefixOf_iff_prefix, List.infix_cons_iff]

/-- The follower relation: every 'A' must be followed by 'S' or 'N'. -/
def afterA (c1 c2 : Char) : Prop := c1 = 'A' → c2 = 'S' ∨ c2 = 'N'

instance : DecidableRel afterA := fun c1 c2 =>
  inferInstanceAs (Decidable (c1 = 'A' → c2 = 'S' ∨ c2 = 'N'))

theorem chain_afterA_no_accepted (s : List Char) (h : List.Chain' afterA s) :
    listInfixOf ("AcceptedAnswerId".data) s = false := by
  by_contra hcon
  rw [Bool.not_eq_false, listInfixOf_iff] at hcon
  obtain ⟨pre, post, heq⟩ := hcon
  rw [← heq] at h
  have h1 := (List.chain'_append.mp h).1
  have h2 := (List.chain'_append.mp h1).2.1
  have hpat : ("AcceptedAnswerId".data) = 'A' :: 'c' :: "ceptedAnswerId".data := by decide
  rw [hpat, List.chain'_cons] at h2
  exact absurd (h2.1 rfl) (by decide)

theorem chain_afterA_append {xs ys : List Char} (hx : List.Chain' afterA xs)
    (hy : List.Chain' afterA ys) (hlast : ∀ x, xs.getLast? = some x → x ≠ 'A') :
    List.Chain' afterA (xs ++ ys) := by
  rw [List.chain'_append]
  refine ⟨hx, hy, ?_⟩
  intro x hx' y _ hA
  exact absurd hA (hlast x (Option.mem_def.mp hx'))

theorem lastNe_of_noA {xs : List Char} (h : ∀ c ∈ xs, c ≠ 'A') :
    ∀ x, xs.getLast? = some x → x ≠ 'A' :=
  fun x hx => h x (List.mem_of_getLast?_eq_some hx)

theorem lastNe_of_ne_someA {xs : List Char} (h : xs.getLast? ≠ some 'A') :
    ∀ x, xs.getLast? = some x → x ≠ 'A' :=
  fun _ hx hxa => h (hxa ▸ hx)

theorem lastNe_append {xs ys : List Char} (hx : ∀ x, xs.getLast? = some x → x ≠ 'A')
    (hy : ∀ x, ys.getLast? = some x → x ≠ 'A') :
    ∀ x, (xs ++ ys).getLast? = some x → x ≠ 'A' := by
  intro x h
  rw [List.getLast?_append] at h
  cases hys : ys.getLast? with
  | none => rw [hys, Option.none_or] at h; exact hx x h
  | some z =>
    rw [hys] at h
    have hz : (some z).or xs.getLast? = some z := rfl
    rw [hz] at h
    have hzx := Option.some.inj h
    subst hzx
    exact hy z hys

theorem chain_afterA_of_noA {xs : List Char} (h : ∀ c ∈ xs, c ≠ 'A') :
    List.Chain' afterA xs := by
  induction xs with
  | nil => exact List.chain'_nil
  | cons c rest ih =>
    cases rest with
    | nil => exact List.chain'_singleton c
    | cons c2 rest2 =>
      rw [List.chain'_cons]
      refine ⟨fun hA => absurd hA (h c (by simp)), ih ?_⟩
      intro x hx
      exact h x (by simp [hx])

def goodA : List Char → Bool
  | c1 :: c2 :: rest => (c1 != 'A' || c2 == 'S' || c2 == 'N') && goodA (c2 :: rest)
  | _ => true

theorem chain_afterA_of_goodA : ∀ xs, goodA xs = true → List.Chain' afterA xs
  | [], _ => List.chain'_nil
  | [c], _ => List.chain'_singleton c
  | c1 :: c2 :: rest, h => by
    rw [goodA, Bool.and_eq_true] at h
    rw [List.chain'_cons]
    refine ⟨?_, chain_afterA_of_goodA (c2 :: rest) h.2⟩
    intro hA
    subst hA
    have h1 := h.1
    simp at h1
    exact h1

theorem chain_afterA_flatten : ∀ ps : List (List Char),
    (∀ p ∈ ps, List.Chain' afterA p) →
    (∀ p ∈ ps, ∀ x, p.getLast? = some x → x ≠ 'A') →
    List.Chain' afterA ps.flatten
  | [], _, _ => List.chain'_nil
  | p :: rest, hall, hlast => by
    rw [List.flatten]
    exact chain_afterA_append (hall p (by simp))
      (chain_afterA_flatten rest (fun q hq => hall q (by simp [hq]))
        (fun q hq => hlast q (by simp [hq])))
      (hlast p (by simp))

theorem count_subselect_no_accepted (t1 t2 t3 t4 : String)
    (h1 : ∀ c ∈ t1.data, c ≠ 'A') (h2 : ∀ c ∈ t2.data, c ≠ 'A')
    (h3 : ∀ c ∈ t3.data, c ≠ 'A') (h4 : ∀ c ∈ t4.data, c ≠ 'A') :
    strInfixOf "AcceptedAnswerId" (count_subselect t1 t2 t3 t4) = false := by
  have hall : ∀ p ∈ [("\n            (SELECT COUNT(distinct P.Id) AS " : String).data,
      t4.data,
      ("\n            FROM `sotorrent-org.2018_12_09.Posts` P" : String).data,
      ("\n            WHERE P.PostTypeId = 1 AND (" : String).data,
      ("\n            (P.Tags LIKE '" : String).data,
      t1.data,
      ("' AND P.Tags LIKE '" : String).data,
      t2.data,
      ("')" : String).data,
      ("\n            OR" : String).data,
      ("\n            (P.Tags LIKE '" : String).data,
      t1.data,
      ("' AND (P.Title LIKE '" : String).data,
      t3.data,
      ("' OR P.Body LIKE '" : String).data,
      t3.data,
      ("'))" : String).data,
      ("\n            )" : String).data,
      ("\n            AND" : String).data,
      ("\n            P.Score >= 0) AS " : String).data,
      t4.data], List.Chain' afterA p := by
    intro p hp
    rcases List.mem_cons.mp hp with rfl | hp
    · exact chain_afterA_of_goodA _ (by decide)
    rcases List.mem_cons.mp hp with rfl | hp
    · exact chain_afterA_of_noA h4
    rcases List.mem_cons.mp hp with rfl | hp
    · exact chain_afterA_of_goodA _ (by decide)
    rcases List.mem_cons.mp hp with rfl | hp
    · exact chain_afterA_of_goodA _ (by decide)
    rcases List.mem_cons.mp hp with rfl | hp
    · exact chain_afterA_of_goodA _ (by decide)
    rcases List.mem_cons.mp hp with rfl | hp
    · exact chain_afterA_of_noA h1
    rcases List.mem_cons.mp hp with rfl | hp
    · exact chain_afterA_of_goodA _ (by decide)
    rcases List.mem_cons.mp hp with rfl | hp
    · exact chain_afterA_of_noA h2
    rcases List.mem_cons.mp hp with rfl | hp
    · exact chain_afterA_of_goodA _ (by decide)
    rcases List.mem_cons.mp hp with rfl | hp
    · exact chain_afterA_of_goodA _ (by decide)
    rcases List.mem_cons.mp hp with rfl | hp
    · exact chain_afterA_of_goodA _ (by decide)
    rcases List.mem_cons.mp hp with rfl | hp
    · exact chain_afterA_of_noA h1
    rcases List.mem_cons.mp hp with rfl | hp
    · exact chain_afterA_of_goodA _ (by decide)
    rcases List.mem_cons.mp hp with rfl | hp
    · exact chain_afterA_of_noA h3
    rcases List.mem_cons.mp hp with rfl | hp
    · exact chain_afterA_of_goodA _ (by decide)
    rcases List.mem_cons.mp hp with rfl | hp
    · exact chain_afterA_of_noA h3
    rcases List.mem_cons.mp hp with rfl | hp
    · exact chain_afterA_of_goodA _ (by decide)
    rcases List.mem_cons.mp hp with rfl | hp
    · exact chain_afterA_of_goodA _ (by decide)
    rcases List.mem_cons.mp hp with rfl | hp
    · exact chain_afterA_of_goodA _ (by decide)
    rcases List.mem_cons.mp hp with rfl | hp
    · exact chain_afterA_of_goodA _ (by decide)
    rcases List.mem_cons.mp hp with rfl | hp
    · exact chain_afterA_of_noA h4
    exact absurd hp (List.not_mem_nil p)
  have hlast : ∀ p ∈ [("\n            (SELECT COUNT(distinct P.Id) AS " : String).data,
      t4.data,
      ("\n            FROM `sotorrent-org.2018_12_09.Posts` P" : String).data,
      ("\n            WHERE P.PostTypeId = 1 AND (" : String).data,
      ("\n            (P.Tags LIKE '" : String).data,
      t1.data,
      ("' AND P.Tags LIKE '" : String).data,
      t2.data,
      ("')" : String).data,
      ("\n            OR" : String).data,
      ("\n            (P.Tags LIKE '" : String).data,
      t1.data,
      ("' AND (P.Title LIKE '" : String).data,
      t3.data,
      ("' OR P.Body LIKE '" : String).data,
      t3.data,
      ("'))" : String).data,
      ("\n            )" : String).data,
      ("\n            AND" : String).data,
      ("\n            P.Score >= 0) AS " : String).data,
      t4.data], ∀ x, p.getLast? = some x → x ≠ 'A' := by
    intro p hp
    rcases List.mem_cons.mp hp with rfl | hp
    · exact lastNe_of_ne_someA (by decide)
    rcases List.mem_cons.mp hp with rfl | hp
    · exact lastNe_of_noA h4
    rcases List.mem_cons.mp hp with rfl | hp
    · exact lastNe_of_ne_someA (by decide)
    rcases List.mem_cons.mp hp with rfl | hp
    · exact lastNe_of_ne_someA (by decide)
    rcases List.mem_cons.mp hp with rfl | hp
    · exact lastNe_of_ne_someA (by decide)
    rcases List.mem_cons.mp hp with rfl | hp
    · exact lastNe_of_noA h1
    rcases List.mem_cons.mp hp with rfl | hp
    · exact lastNe_of_ne_someA (by decide)
    rcases List.mem_cons.mp hp with rfl | hp
    · exact lastNe_of_noA h2
    rcases List.mem_cons.mp hp with rfl | hp
    · exact lastNe_of_ne_someA (by decide)
    rcases List.mem_cons.mp hp with rfl | hp
    · exact lastNe_of_ne_someA (by decide)
    rcases List.mem_cons.mp hp with rfl | hp
    · exact lastNe_of_ne_someA (by decide)
    rcases List.mem_cons.mp hp with rfl | hp
    · exact lastNe_of_noA h1
    rcases List.mem_cons.mp hp with rfl | hp
    · exact lastNe_of_ne_someA (by decide)
    rcases List.mem_cons.mp hp with rfl | hp
    · exact lastNe_of_noA h3
    rcases List.mem_cons.mp hp with rfl | hp
    · exact lastNe_of_ne_someA (by decide)
    rcases List.mem_cons.mp hp with rfl | hp
    · exact lastNe_of_noA h3
    rcases List.mem_cons.mp hp with rfl | hp
    · exact lastNe_of_ne_someA (by decide)
    rcases List.mem_cons.mp hp with rfl | hp
    · exact lastNe_of_ne_someA (by decide)
    rcases List.mem_cons.mp hp with rfl | hp
    · exact lastNe_of_ne_someA (by decide)
    rcases List.mem_cons.mp hp with rfl | hp
    · exact lastNe_of_ne_someA (by decide)
    rcases List.mem_cons.mp hp with rfl | hp
    · exact lastNe_of_noA h4
    exact absurd hp (List.not_mem_nil p)
  have hjoin := chain_afterA_flatten _ hall hlast
  have heq : (count_subselect t1 t2 t3 t4).data = List.flatten
     [("\n            (SELECT COUNT(distinct P.Id) AS " : String).data,
      t4.data,
      ("\n            FROM `sotorrent-org.2018_12_09.Posts` P" : String).data,
      ("\n            WHERE P.PostTypeId = 1 AND (" : String).data,
      ("\n            (P.Tags LIKE '" : String).data,
      t1.data,
      ("' AND P.Tags LIKE '" : String).data,
      t2.data,
      ("')" : String).data,
      ("\n            OR" : String).data,
      ("\n            (P.Tags LIKE '" : String).data,
      t1.data,
      ("' AND (P.Title LIKE '" : String).data,
      t3.data,
      ("' OR P.Body LIKE '" : String).data,
      t3.data,
      ("'))" : String).data,
      ("\n            )" : String).data,
      ("\n            AND" : String).data,
      ("\n            P.Score >= 0) AS " : String).data,
      t4.data] := by
    simp only [count_subselect, String.data_append, List.flatten, List.append_nil,
      List.append_assoc]
  rw [strInfixOf, heq]
  exact chain_afterA_no_accepted _ hjoin

theorem strInfixOf_of_eq_append (p pre post s : String) (h : s = pre ++ (p ++ post)) :
    strInfixOf p s = true := by
  subst h
  rw [strInfixOf, listInfixOf_iff]
  simp only [String.data_append]
  exact List.infix_append' pre.data p.data post.data

theorem strInfixOf_trans (p q s : String) (h1 : strInfixOf p q = true)
    (h2 : strInfixOf q s = true) : strInfixOf p s = true := by
  rw [strInfixOf, listInfixOf_iff] at h1 h2 ⊢
  exact h1.trans h2

theorem count_subselect_contains_posttype (t1 t2 t3 t4 : String) :
    strInfixOf "P.PostTypeId = 1" (count_subselect t1 t2 t3 t4) = true := by
  refine strInfixOf_trans _ "\n            WHERE P.PostTypeId = 1 AND (" _ (by decide)
    (strInfixOf_of_eq_append _
      ("\n            (SELECT COUNT(distinct P.Id) AS " ++ t4
        ++ "\n            FROM `sotorrent-org.2018_12_09.Posts` P")
      ("\n            (P.Tags LIKE '" ++ t1 ++ "' AND P.Tags LIKE '" ++ t2 ++ "')"
        ++ "\n            OR"
        ++ "\n            (P.Tags LIKE '" ++ t1 ++ "' AND (P.Title LIKE '" ++ t3
        ++ "' OR P.Body LIKE '" ++ t3 ++ "'))"
        ++ "\n            )" ++ "\n            AND"
        ++ "\n            P.Score >= 0) AS " ++ t4) _ ?_)
  simp only [count_subselect, String.append_assoc]

theorem count_subselect_contains_score (t1 t2 t3 t4 : String) :
    strInfixOf "P.Score >= 0" (count_subselect t1 t2 t3 t4) = true := by
  refine strInfixOf_trans _ "\n            P.Score >= 0) AS " _ (by decide)
    (strInfixOf_of_eq_append _
      ("\n            (SELECT COUNT(distinct P.Id) AS " ++ t4
        ++ "\n            FROM `sotorrent-org.2018_12_09.Posts` P"
        ++ "\n            WHERE P.PostTypeId = 1 AND ("
        ++ "\n            (P.Tags LIKE '" ++ t1 ++ "' AND P.Tags LIKE '" ++ t2 ++ "')"
        ++ "\n            OR"
        ++ "\n            (P.Tags LIKE '" ++ t1 ++ "' AND (P.Title LIKE '" ++ t3
        ++ "' OR P.Body LIKE '" ++ t3 ++ "'))"
        ++ "\n            )" ++ "\n            AND")
      t4 _ ?_)
  simp only [count_subselect, String.append_assoc]

theorem count_subselect_contains_predicate (t1 t2 t3 t4 : String) :
    strInfixOf ("(P.Tags LIKE '" ++ t1 ++ "' AND P.Tags LIKE '" ++ t2
        ++ "')\n            OR\n            (P.Tags LIKE '" ++ t1
        ++ "' AND (P.Title LIKE '" ++ t3 ++ "' OR P.Body LIKE '" ++ t3 ++ "'))")
      (count_subselect t1 t2 t3 t4) = true := by
  have e1 : ("\n            (P.Tags LIKE '" : String) = "\n            " ++ "(P.Tags LIKE '" := by decide
  have e2 : ("')\n            OR\n            (P.Tags LIKE '" : String)
      = "')" ++ ("\n            OR" ++ ("\n            " ++ "(P.Tags LIKE '")) := by decide
  refine strInfixOf_of_eq_append _
    ("\n            (SELECT COUNT(distinct P.Id) AS " ++ t4
      ++ "\n            FROM `sotorrent-org.2018_12_09.Posts` P"
      ++ "\n            WHERE P.PostTypeId = 1 AND (" ++ "\n            ")
    ("\n            )" ++ "\n            AND"
      ++ "\n            P.Score >= 0) AS " ++ t4) _ ?_
  rw [count_subselect, e1, e2]
  simp only [String.append_assoc]

theorem query_language_pair_contains_accepted (a b : String) :
    strInfixOf "AcceptedAnswerId IS NOT NULL" (query_language_pair_query a b) = true := by
  refine strInfixOf_trans _ "\n        P.AcceptedAnswerId IS NOT NULL" _ (by decide)
    (strInfixOf_of_eq_append _
      ("\n        SELECT CONCAT('http://stackoverflow.com/q/', Cast(P.Id as string)) as URL, P.Title, P.ViewCount, P.Score, P.AcceptedAnswerId, P.Tags, P.Body"
        ++ "\n        FROM `sotorrent-org.2018_12_09.Posts` P"
        ++ "\n        WHERE P.PostTypeId = 1 AND ("
        ++ "\n        (P.Tags LIKE '" ++ tag_pattern a ++ "' AND P.Tags LIKE '" ++ tag_pattern b ++ "')"
        ++ "\n        OR"
        ++ "\n        (P.Tags LIKE '" ++ tag_pattern a ++ "' AND (P.Title LIKE '" ++ fix_lang_text b
        ++ "' OR P.Body LIKE '" ++ fix_lang_text b ++ "'))"
        ++ "\n        )" ++ "\n        AND" ++ "\n        P.Score >= 0" ++ "\n        AND")
      "\n        " _ ?_)
  simp only [query_language_pair_query, String.append_assoc]
/-- For every language in the table, none of the three interpolated
fragments (tag pattern, text pattern, alias token) contains the
character 'A'. -/
theorem langs_noA : ∀ l ∈ langs,
    (∀ c ∈ (tag_pattern l).data, c ≠ 'A') ∧ (∀ c ∈ (fix_lang_text l).data, c ≠ 'A')
      ∧ (∀ c ∈ (removeSpaces (lang_file_name l)).data, c ≠ 'A') := by
  rw [langs_eq]
  decide


/-! ### Claim theorems -/

/-- C7: `lang_file_name` and `revert_lang_file_name` round-trip for all four
override pairs (c# ↔ cs, c++ ↔ cpp, objective c ↔ objectivec,
visual basic ↔ visualbasic), and on every string outside the respective
override keys both helpers are the identity. -/
theorem lang_file_name_roundtrip :
    ((revert_lang_file_name (lang_file_name "c#") = "c#"
        ∧ lang_file_name (revert_lang_file_name "cs") = "cs")
      ∧ (revert_lang_file_name (lang_file_name "c++") = "c++"
        ∧ lang_file_name (revert_lang_file_name "cpp") = "cpp")
      ∧ (revert_lang_file_name (lang_file_name "objective c") = "objective c"
        ∧ lang_file_name (revert_lang_file_name "objectivec") = "objectivec")
      ∧ (revert_lang_file_name (lang_file_name "visual basic") = "visual basic"
        ∧ lang_file_name (revert_lang_file_name "visualbasic") = "visualbasic"))
    ∧ (∀ x : String, x ≠ "c#" → x ≠ "c++" → x ≠ "objective c" → x ≠ "visual basic" →
        lang_file_name x = x)
    ∧ (∀ x : String, x ≠ "cs" → x ≠ "cpp" → x ≠ "objectivec" → x ≠ "visualbasic" →
        revert_lang_file_name x = x) := by
  refine ⟨⟨⟨rfl, rfl⟩, ⟨rfl, rfl⟩, ⟨rfl, rfl⟩, ⟨rfl, rfl⟩⟩, ?_, ?_⟩
  · intro x h1 h2 h3 h4
    simp [lang_file_name, h1, h2, h3, h4]
  · intro x h1 h2 h3 h4
    simp [revert_lang_file_name, h1, h2, h3, h4]

/-- Witness for C7: the identity branches evaluated at the
override-free name "python". -/
theorem lang_file_name_roundtrip_witness :
    (("python" : String) ≠ "c#" ∧ ("python" : String) ≠ "c++"
      ∧ ("python" : String) ≠ "objective c" ∧ ("python" : String) ≠ "visual basic")
    ∧ lang_file_name "python" = "python" ∧ revert_lang_file_name "python" = "python" :=
  ⟨⟨by decide, by decide, by decide, by decide⟩,
   lang_file_name_roundtrip.2.1 "python" (by decide) (by decide) (by decide) (by decide),
   lang_file_name_roundtrip.2.2 "python" (by decide) (by decide) (by decide) (by decide)⟩

/-- C8: `fix_lang_text` returns the "in c"/"in r"/"in go" phrase patterns
for the three ambiguous names, and the plain word-boundary pattern with the
language name verbatim for every other string. -/
theorem fix_lang_text_spec :
    fix_lang_text "c" = "/\\bin c\\b/"
    ∧ fix_lang_text "r" = "/\\bin r\\b/"
    ∧ fix_lang_text "go" = "/\\bin go\\b/"
    ∧ ∀ lang : String, lang ≠ "c" → lang ≠ "r" → lang ≠ "go" →
        fix_lang_text lang = "/\\b" ++ lang ++ "\\b/" := by
  refine ⟨rfl, rfl, rfl, ?_⟩
  intro lang h1 h2 h3
  simp [fix_lang_text, h1, h2, h3]

/-- Witness for C8: the general branch evaluated at "python". -/
theorem fix_lang_text_spec_witness :
    (("python" : String) ≠ "c" ∧ ("python" : String) ≠ "r" ∧ ("python" : String) ≠ "go")
    ∧ fix_lang_text "python" = "/\\b" ++ "python" ++ "\\b/" :=
  ⟨⟨by decide, by decide, by decide⟩,
   fix_lang_text_spec.2.2.2 "python" (by decide) (by decide) (by decide)⟩

/-- C9: converting the hardcoded positionally-zipped `prev`/`target` lists
of `query_pairs` back through `revert_lang_file_name` reproduces exactly
the 15 documented canonical-name pairs, in order. -/
theorem query_pairs_zip_canonical :
    query_pairs_canonical =
      [("c", "c++"), ("c#", "visual basic"), ("clojure", "java"), ("java", "c#"),
       ("kotlin", "java"), ("lua", "c++"), ("matlab", "python"), ("node", "php"),
       ("objective c", "swift"), ("perl", "python"), ("php", "java"),
       ("python", "c++"), ("r", "python"), ("ruby", "python"),
       ("scala", "java")] := by
  decide

/-- C10: on any string that is not a key of the respective override mapping,
`lang_file_name` and `revert_lang_file_name` return the input unchanged.
(Both embeddings are total functions, mirroring the Python code, which has
no error path: unknown names fall through every comparison to the final
identity return.) -/
theorem lookup_identity_fallback :
    (∀ s : String, s ∉ (["c#", "c++", "objective c", "visual basic"] : List String) →
        lang_file_name s = s)
    ∧ (∀ s : String, s ∉ (["cs", "cpp", "objectivec", "visualbasic"] : List String) →
        revert_lang_file_name s = s) := by
  constructor
  · intro s hs
    simp only [List.mem_cons, List.not_mem_nil, or_false, not_or] at hs
    obtain ⟨h1, h2, h3, h4⟩ := hs
    simp [lang_file_name, h1, h2, h3, h4]
  · intro s hs
    simp only [List.mem_cons, List.not_mem_nil, or_false, not_or] at hs
    obtain ⟨h1, h2, h3, h4⟩ := hs
    simp [revert_lang_file_name, h1, h2, h3, h4]

/-- Witness for C10: both helpers evaluated at the override-free
name "ruby". -/
theorem lookup_identity_fallback_witness :
    (("ruby" : String) ∉ (["c#", "c++", "objective c", "visual basic"] : List String)
      ∧ ("ruby" : String) ∉ (["cs", "cpp", "objectivec", "visualbasic"] : List String))
    ∧ lang_file_name "ruby" = "ruby" ∧ revert_lang_file_name "ruby" = "ruby" :=
  ⟨⟨by decide, by decide⟩,
   lookup_identity_fallback.1 "ruby" (by decide),
   lookup_identity_fallback.2 "ruby" (by decide)⟩

/-- C5: for a = "python", b = "c++", the pair query is exactly the SQL text
below — the WHERE clause is (Tags LIKE both tag patterns) OR (Tags LIKE the
python tag AND Title/Body LIKE the word-boundary pattern for "c++"),
conjoined with Score >= 0 and AcceptedAnswerId IS NOT NULL — and the output
CSV basename is "python_cpp.csv". -/
theorem query_language_pair_python_cpp :
    query_language_pair_query "python" "c++" =
      "\n"
      ++ "        SELECT CONCAT('http://stackoverflow.com/q/', Cast(P.Id as string)) as URL, P.Title, P.ViewCount, P.Score, P.AcceptedAnswerId, P.Tags, P.Body\n"
      ++ "        FROM `sotorrent-org.2018_12_09.Posts` P\n"
      ++ "        WHERE P.PostTypeId = 1 AND (\n"
      ++ "        (P.Tags LIKE '%<python>%' AND P.Tags LIKE '%<c++>%')\n"
      ++ "        OR\n"
      ++ "        (P.Tags LIKE '%<python>%' AND (P.Title LIKE '/\\bc++\\b/' OR P.Body LIKE '/\\bc++\\b/'))\n"
      ++ "        )\n"
      ++ "        AND\n"
      ++ "        P.Score >= 0\n"
      ++ "        AND\n"
      ++ "        P.AcceptedAnswerId IS NOT NULL\n"
      ++ "        "
    ∧ query_language_pair_csv_basename "python" "c++" = "python_cpp.csv" := by
  constructor
  · decide
  · rfl

/-- C6: both query builders consult the tag-override map inside the
`%<...>%` pattern: the three overridden languages map to their override
text, for a = "node" the pattern is `%<node.js>%` and not `%<node>%`, and
the generated pair query and count subselect for source "node" contain the
override pattern and not the canonical one.  (`build_sql_expr "node"` emits
exactly the `subselect_for "node"` texts, by the structure equation.) -/
theorem tag_override_used :
    tag_pattern "visual basic" = "%<vb.net>%"
    ∧ tag_pattern "node" = "%<node.js>%"
    ∧ tag_pattern "objective c" = "%<objective-c>%"
    ∧ tag_pattern "node" ≠ "%<node>%"
    ∧ strInfixOf "%<node.js>%" (query_language_pair_query "node" "java") = true
    ∧ strInfixOf "%<node>%" (query_language_pair_query "node" "java") = false
    ∧ strInfixOf "%<node.js>%" (subselect_for "node" "java") = true
    ∧ strInfixOf "%<node>%" (subselect_for "node" "java") = false
    ∧ build_sql_expr "node" = "SELECT * FROM\n\n" ++
        sepJoin ",\n" ((langs.filter (fun l => l ≠ "node")).map (subselect_for "node")) := by
  refine ⟨rfl, rfl, rfl, by decide, by decide, by decide, by decide, by decide, ?_⟩
  exact build_sql_expr_eq "node" (by rw [langs_eq]; decide)

/-- C1 counterexample: for the last-sorted language a = "visual basic" the
generated query still contains one subselect per other language — 25 =
len(langs) - 1 of them, the "swift" subselect included — not
len(langs) - 2 = 24 as claimed; only the separator after the "swift"
subselect is suppressed. -/
theorem build_sql_expr_last_lang_drop_counterexample :
    build_sql_expr "visual basic" = "SELECT * FROM\n\n" ++
        sepJoin ",\n"
          ((langs.filter (fun l => l ≠ "visual basic")).map (subselect_for "visual basic"))
    ∧ ((langs.filter (fun l => l ≠ "visual basic")).map
        (subselect_for "visual basic")).length = langs.length - 1
    ∧ subselect_for "visual basic" "swift"
        ∈ (langs.filter (fun l => l ≠ "visual basic")).map (subselect_for "visual basic")
    ∧ langs.length - 1 ≠ langs.length - 2 := by
  refine ⟨build_sql_expr_eq "visual basic" (by rw [langs_eq]; decide), ?_, ?_, ?_⟩
  · rw [List.length_map]
    exact filter_ne_length "visual basic" langs langs_nodup (by rw [langs_eq]; decide)
  · rw [langs_eq]
    exact List.mem_map.mpr ⟨"swift", by decide, rfl⟩
  · rw [langs_length]
    decide

/-- C1 amended: when a = "visual basic" is the lexicographically-last
language, `build_sql_expr` still emits all len(langs) - 1 subselects (the
"swift" one is the final subselect of the generated list); what is dropped
is only the trailing ",\n" separator after it — the join below places a
separator between consecutive subselects and none after the last. -/
theorem build_sql_expr_last_lang_amended :
    build_sql_expr "visual basic" = "SELECT * FROM\n\n" ++
        sepJoin ",\n"
          ((langs.filter (fun l => l ≠ "visual basic")).map (subselect_for "visual basic"))
    ∧ ((langs.filter (fun l => l ≠ "visual basic")).map
        (subselect_for "visual basic")).length = langs.length - 1
    ∧ ((langs.filter (fun l => l ≠ "visual basic")).map
        (subselect_for "visual basic")).getLast?
        = some (subselect_for "visual basic" "swift") := by
  refine ⟨build_sql_expr_eq "visual basic" (by rw [langs_eq]; decide), ?_, ?_⟩
  · rw [List.length_map]
    exact filter_ne_length "visual basic" langs langs_nodup (by rw [langs_eq]; decide)
  · rw [langs_eq]
    rfl

/-- C2: for every language a, the generated all-targets query is the header
followed by exactly len(langs) - 1 count subselects — one per language
l ≠ a, in sorted order — joined by ",\n" with a separator between
consecutive subselects and none after the final one; in particular for
a = "visual basic" the "swift" subselect is still among them. -/
theorem build_sql_expr_subselect_count (a : String) (ha : a ∈ langs) :
    build_sql_expr a = "SELECT * FROM\n\n" ++
        sepJoin ",\n" ((langs.filter (fun l => l ≠ a)).map (subselect_for a))
    ∧ ((langs.filter (fun l => l ≠ a)).map (subselect_for a)).length = langs.length - 1
    ∧ (a = "visual basic" →
        subselect_for a "swift" ∈ (langs.filter (fun l => l ≠ a)).map (subselect_for a)) := by
  refine ⟨build_sql_expr_eq a ha, ?_, ?_⟩
  · rw [List.length_map]
    exact filter_ne_length a langs langs_nodup ha
  · intro hvb
    subst hvb
    rw [langs_eq]
    exact List.mem_map.mpr ⟨"swift", by decide, rfl⟩

/-- Witness for C2, at the concrete source language "visual basic". -/
theorem build_sql_expr_subselect_count_witness :
    "visual basic" ∈ langs
    ∧ (build_sql_expr "visual basic" = "SELECT * FROM\n\n" ++
          sepJoin ",\n"
            ((langs.filter (fun l => l ≠ "visual basic")).map (subselect_for "visual basic"))
       ∧ ((langs.filter (fun l => l ≠ "visual basic")).map
            (subselect_for "visual basic")).length = langs.length - 1
       ∧ ("visual basic" = "visual basic" →
            subselect_for "visual basic" "swift"
              ∈ (langs.filter (fun l => l ≠ "visual basic")).map
                  (subselect_for "visual basic"))) :=
  ⟨by rw [langs_eq]; decide,
   build_sql_expr_subselect_count "visual basic" (by rw [langs_eq]; decide)⟩

/-- C4: for every source language a other than the last-sorted one, the
generated query consists of exactly len(langs) - 1 subselects, one per
language l ≠ a in sorted order (each `subselect_for a l` carries the alias
`removeSpaces (lang_file_name l)` by construction); the alias tokens are
pairwise distinct and space-free. -/
theorem build_sql_expr_nonlast_subselects (a : String) (ha : a ∈ langs)
    (hlast : a ≠ "visual basic") :
    build_sql_expr a = "SELECT * FROM\n\n" ++
        sepJoin ",\n" ((langs.filter (fun l => l ≠ a)).map (subselect_for a))
    ∧ ((langs.filter (fun l => l ≠ a)).map (subselect_for a)).length = langs.length - 1
    ∧ ((langs.filter (fun l => l ≠ a)).map
        (fun l => removeSpaces (lang_file_name l))).Nodup
    ∧ ∀ l ∈ langs.filter (fun l => l ≠ a),
        strInfixOf " " (removeSpaces (lang_file_name l)) = false := by
  refine ⟨build_sql_expr_eq a ha, ?_, ?_, ?_⟩
  · rw [List.length_map]
    exact filter_ne_length a langs langs_nodup ha
  · have hnd : (langs.map (fun l => removeSpaces (lang_file_name l))).Nodup := by
      rw [langs_eq]; decide
    exact hnd.sublist ((List.filter_sublist langs).map (fun l => removeSpaces (lang_file_name l)))
  · have hall : ∀ l ∈ langs, strInfixOf " " (removeSpaces (lang_file_name l)) = false := by
      rw [langs_eq]; decide
    intro l hl
    exact hall l (List.mem_of_mem_filter hl)

/-- Witness for C4, at the concrete source language "python". -/
theorem build_sql_expr_nonlast_subselects_witness :
    ("python" ∈ langs ∧ ("python" : String) ≠ "visual basic")
    ∧ (build_sql_expr "python" = "SELECT * FROM\n\n" ++
          sepJoin ",\n" ((langs.filter (fun l => l ≠ "python")).map (subselect_for "python"))
       ∧ ((langs.filter (fun l => l ≠ "python")).map (subselect_for "python")).length
           = langs.length - 1
       ∧ ((langs.filter (fun l => l ≠ "python")).map
            (fun l => removeSpaces (lang_file_name l))).Nodup
       ∧ ∀ l ∈ langs.filter (fun l => l ≠ "python"),
           strInfixOf " " (removeSpaces (lang_file_name l)) = false) :=
  ⟨⟨by rw [langs_eq]; decide, by decide⟩,
   build_sql_expr_nonlast_subselects "python" (by rw [langs_eq]; decide) (by decide)⟩

/-- C3 counterexample: the count subselects of the all-targets builder do
not restrict to accepted-answer questions.  Concretely, for source "java"
the generated query consists of the `subselect_for "java"` texts, the
subselect for target "c" is among them, and the text "AcceptedAnswerId"
does not occur in it — while the §4.2 pair query does contain the
"AcceptedAnswerId IS NOT NULL" restriction. -/
theorem count_subselect_accepted_counterexample :
    build_sql_expr "java" = "SELECT * FROM\n\n" ++
        sepJoin ",\n" ((langs.filter (fun l => l ≠ "java")).map (subselect_for "java"))
    ∧ subselect_for "java" "c"
        ∈ (langs.filter (fun l => l ≠ "java")).map (subselect_for "java")
    ∧ strInfixOf "AcceptedAnswerId" (subselect_for "java" "c") = false
    ∧ strInfixOf "AcceptedAnswerId IS NOT NULL"
        (query_language_pair_query "java" "c") = true := by
  refine ⟨build_sql_expr_eq "java" (by rw [langs_eq]; decide), ?_, by decide, by decide⟩
  rw [langs_eq]
  exact List.mem_map.mpr ⟨"c", by decide, rfl⟩

/-- C3 amended: every count subselect the all-targets builder emits — for
every source language a and target language l — applies the
(tag ∧ tag) ∨ (tag ∧ text) predicate together with `PostTypeId = 1` and
`Score >= 0`, but — unlike the §4.2 pair query — it does not restrict to
posts with `AcceptedAnswerId IS NOT NULL`: no generated subselect mentions
"AcceptedAnswerId" at all, while every pair query does. -/
theorem count_subselect_predicate_amended :
    (∀ a ∈ langs, ∀ l ∈ langs,
        strInfixOf "AcceptedAnswerId" (subselect_for a l) = false)
    ∧ (∀ a l : String,
        strInfixOf "P.PostTypeId = 1" (subselect_for a l) = true
        ∧ strInfixOf "P.Score >= 0" (subselect_for a l) = true
        ∧ strInfixOf ("(P.Tags LIKE '" ++ tag_pattern a ++ "' AND P.Tags LIKE '"
            ++ tag_pattern l ++ "')\n            OR\n            (P.Tags LIKE '"
            ++ tag_pattern a ++ "' AND (P.Title LIKE '" ++ fix_lang_text l
            ++ "' OR P.Body LIKE '" ++ fix_lang_text l ++ "'))")
            (subselect_for a l) = true)
    ∧ (∀ a b : String,
        strInfixOf "AcceptedAnswerId IS NOT NULL" (query_language_pair_query a b) = true)
    ∧ (∀ a ∈ langs, build_sql_expr a = "SELECT * FROM\n\n" ++
        sepJoin ",\n" ((langs.filter (fun l => l ≠ a)).map (subselect_for a))) := by
  refine ⟨?_, ?_, ?_, fun a ha => build_sql_expr_eq a ha⟩
  · intro a ha l hl
    exact count_subselect_no_accepted (tag_pattern a) (tag_pattern l) (fix_lang_text l)
      (removeSpaces (lang_file_name l)) (langs_noA a ha).1 (langs_noA l hl).1
      (langs_noA l hl).2.1 (langs_noA l hl).2.2
  · intro a l
    exact ⟨count_subselect_contains_posttype (tag_pattern a) (tag_pattern l)
        (fix_lang_text l) (removeSpaces (lang_file_name l)),
      count_subselect_contains_score (tag_pattern a) (tag_pattern l)
        (fix_lang_text l) (removeSpaces (lang_file_name l)),
      count_subselect_contains_predicate (tag_pattern a) (tag_pattern l)
        (fix_lang_text l) (removeSpaces (lang_file_name l))⟩
  · intro a b
    exact query_language_pair_contains_accepted a b

/-- Witness for C3's amended theorem, at the concrete source "java" and
target "c". -/
theorem count_subselect_predicate_amended_witness :
    ("java" ∈ langs ∧ "c" ∈ langs)
    ∧ strInfixOf "AcceptedAnswerId" (subselect_for "java" "c") = false
    ∧ strInfixOf "P.PostTypeId = 1" (subselect_for "java" "c") = true :=
  ⟨⟨by rw [langs_eq]; decide, by rw [langs_eq]; decide⟩,
   count_subselect_predicate_amended.1 "java" (by rw [langs_eq]; decide)
     "c" (by rw [langs_eq]; decide),
   (count_subselect_predicate_amended.2.1 "java" "c").1⟩

end Soquery
